import Mathlib

/-!
Verification of the user-registration feature in `src/app/views.py` and
`src/app/urls.py`.

The two view functions are embedded as pure state-passing functions: the
persisted store of `Usuario` records is an explicit `List U` argument, and
each view returns the updated store together with the HTTP response it
produces.  The external form/validation component (`UsuarioForm` in
`forms.py`) and the `Usuario` model (`models.py`) are not part of the
excerpt, so the `Usuario` record type is an arbitrary type parameter `U`
and the validator is modelled from the spec's interface.
-/

/-- Key-value form data, as submitted in the body of a POST request
(`request.POST` in `views.py`). -/
abbrev FormData : Type := List (String × String)

/-- Field-level validation errors: pairs of a field name and an error
message, as attached to a bound form whose validation failed. -/
abbrev ValidationErrors : Type := List (String × String)

/-- An HTTP request, restricted to the parts the two views consume:
its method string (`request.method`) and its submitted POST body
(`request.POST`). -/
structure Request where
  method : String
  postData : FormData
deriving Repr, DecidableEq

/-- The state of a `UsuarioForm` instance as it reaches the template:
`UsuarioForm()` is an empty unbound form, `UsuarioForm(request.POST)` that
failed validation is a bound form carrying the submitted data and its
field-level errors. -/
inductive FormState where
  | unbound : FormState
  | bound : FormData → ValidationErrors → FormState
deriving Repr, DecidableEq

/-- The template context dictionary passed to `render` by the two views:
either a form under the key `form` (registration view) or a list of
records under the key `usuarios` (listing view). -/
inductive Context (U : Type) where
  | formCtx : FormState → Context U
  | usuariosCtx : List U → Context U
deriving Repr, DecidableEq

/-- An HTTP response as produced by the two views: a `redirect` to a named
route, or a response `rendered` from a named template file and a context.
The rendered output is determined by the template name and the context the
view supplies, which is all this code contributes to it. -/
inductive Response (U : Type) where
  | redirect : String → Response U
  | rendered : String → Context U → Response U
deriving Repr, DecidableEq

/-- Modelled from the spec: the external form/validation component
(`UsuarioForm` in `forms.py`, absent from the excerpt), reduced to the
interface the spec names, `validate(input) -> Result<Usuario,
ValidationErrors>`.  `Except.ok u` stands for `form.is_valid()` returning
true with `form.save()` creating the single record `u`; `Except.error e`
stands for `form.is_valid()` returning false with field-level errors `e`. -/
structure UsuarioForm (U : Type) where
  validate : FormData → Except ValidationErrors U

/-- `cadastrar_usuario` from `src/app/views.py`: on POST, bind the
submitted data to a `UsuarioForm`; if it is valid, save the record and
redirect to the route named `listar_usuarios`; if not, fall through and
render `cadastrar_usuario.html` with the bound form.  On any other method,
construct an empty form and render the same template with it. -/
def cadastrar_usuario {U : Type} (F : UsuarioForm U) (request : Request)
    (store : List U) : List U × Response U :=
  if request.method = "POST" then
    match F.validate request.postData with
    | Except.ok u => (store ++ [u], Response.redirect "listar_usuarios")
    | Except.error errs =>
        (store, Response.rendered "cadastrar_usuario.html"
          (Context.formCtx (FormState.bound request.postData errs)))
  else
    (store, Response.rendered "cadastrar_usuario.html"
      (Context.formCtx FormState.unbound))

/-- `listar_usuarios` from `src/app/views.py`: fetch all persisted records
(`Usuario.objects.all()`) and render `listar_usuarios.html` with them. -/
def listar_usuarios {U : Type} (_request : Request) (store : List U) :
    List U × Response U :=
  (store, Response.rendered "listar_usuarios.html" (Context.usuariosCtx store))

/-- The two view functions named by `src/app/urls.py`. -/
inductive View where
  | cadastrar_usuario : View
  | listar_usuarios : View
deriving Repr, DecidableEq

/-- One `path(route, view, name=...)` entry of the URL configuration. -/
structure UrlPattern where
  route : String
  view : View
  name : String
deriving Repr, DecidableEq

/-- `urlpatterns` from `src/app/urls.py`. -/
def urlpatterns : List UrlPattern :=
  [ ⟨"cadastrar/", View.cadastrar_usuario, "cadastrar_usuario"⟩,
    ⟨"usuarios/", View.listar_usuarios, "listar_usuarios"⟩ ]

/-- C1: a POST to the registration handler whose submitted data validates
persists exactly one new Usuario record (the new store is the old store
with the single record `u` appended, so no partial writes) and returns a
redirect to the listing endpoint. -/
theorem C1_valid_post_persists_one_and_redirects {U : Type} (F : UsuarioForm U)
    (req : Request) (store : List U) (u : U)
    (hm : req.method = "POST") (hv : F.validate req.postData = Except.ok u) :
    cadastrar_usuario F req store =
      (store ++ [u], Response.redirect "listar_usuarios") := by
  simp [cadastrar_usuario, hm, hv]

/-- Witness for C1 at a concrete validator, request and store. -/
theorem C1_witness :
    let F : UsuarioForm Nat :=
      ⟨fun d => if d.length = 1 then Except.ok 7 else Except.error [("nome", "obrigatorio")]⟩
    let req : Request := ⟨"POST", [("nome", "ana")]⟩
    (⟨"POST", [("nome", "ana")]⟩ : Request).method = "POST" ∧
    F.validate req.postData = Except.ok 7 ∧
    cadastrar_usuario F req [3] = ([3, 7], Response.redirect "listar_usuarios") :=
  ⟨rfl, rfl, C1_valid_post_persists_one_and_redirects _ _ [3] 7 rfl rfl⟩

/-- C2: a POST to the registration handler whose submitted data fails
validation leaves the store unchanged and returns, as a normal response,
the form template re-rendered with the bound form carrying the originally
submitted values and the field-level errors. -/
theorem C2_invalid_post_no_write_rerenders {U : Type} (F : UsuarioForm U)
    (req : Request) (store : List U) (errs : ValidationErrors)
    (hm : req.method = "POST") (hv : F.validate req.postData = Except.error errs) :
    cadastrar_usuario F req store =
      (store, Response.rendered "cadastrar_usuario.html"
        (Context.formCtx (FormState.bound req.postData errs))) := by
  simp [cadastrar_usuario, hm, hv]

/-- Witness for C2 at a concrete validator, request and store. -/
theorem C2_witness :
    let F : UsuarioForm Nat :=
      ⟨fun d => if d.length = 1 then Except.ok 7 else Except.error [("nome", "obrigatorio")]⟩
    let req : Request := ⟨"POST", []⟩
    (⟨"POST", ([] : FormData)⟩ : Request).method = "POST" ∧
    F.validate req.postData = Except.error [("nome", "obrigatorio")] ∧
    cadastrar_usuario F req [3] =
      ([3], Response.rendered "cadastrar_usuario.html"
        (Context.formCtx (FormState.bound [] [("nome", "obrigatorio")]))) :=
  ⟨rfl, rfl, C2_invalid_post_no_write_rerenders _ _ [3] _ rfl rfl⟩

/-- C3: the listing handler renders exactly the full persisted store, with
no filtering, pagination, sorting, or limit; in particular, after two
successful registrations creating records `a` and `b`, the listing
response's context contains both `a` and `b`. -/
theorem C3_listing_contains_every_record {U : Type} (F : UsuarioForm U)
    (reqA reqB reqL : Request) (store : List U) (a b : U)
    (hma : reqA.method = "POST") (hmb : reqB.method = "POST")
    (hva : F.validate reqA.postData = Except.ok a)
    (hvb : F.validate reqB.postData = Except.ok b) :
    (∀ (req : Request) (s : List U), (listar_usuarios req s).snd =
        Response.rendered "listar_usuarios.html" (Context.usuariosCtx s)) ∧
    ((listar_usuarios reqL
        (cadastrar_usuario F reqB (cadastrar_usuario F reqA store).fst).fst).snd =
      Response.rendered "listar_usuarios.html"
        (Context.usuariosCtx (store ++ [a] ++ [b])) ∧
      a ∈ store ++ [a] ++ [b] ∧ b ∈ store ++ [a] ++ [b]) := by
  refine ⟨fun req s => rfl, ?_, ?_, ?_⟩
  · simp [cadastrar_usuario, listar_usuarios, hma, hmb, hva, hvb]
  · simp
  · simp

/-- Witness for C3 at a concrete validator, requests and store. -/
theorem C3_witness :
    let F : UsuarioForm Nat :=
      ⟨fun d => if d.length = 1 then Except.ok 7 else Except.error [("nome", "obrigatorio")]⟩
    (∀ (req : Request) (s : List Nat), (listar_usuarios req s).snd =
        Response.rendered "listar_usuarios.html" (Context.usuariosCtx s)) ∧
    ((listar_usuarios ⟨"GET", []⟩
        (cadastrar_usuario F ⟨"POST", [("nome", "bia")]⟩
          (cadastrar_usuario F ⟨"POST", [("nome", "ana")]⟩ [3]).fst).fst).snd =
      Response.rendered "listar_usuarios.html"
        (Context.usuariosCtx ([3] ++ [7] ++ [7])) ∧
      7 ∈ [3] ++ [7] ++ [7] ∧ 7 ∈ [3] ++ [7] ++ [7]) :=
  C3_listing_contains_every_record _ _ _ _ [3] 7 7 rfl rfl rfl rfl

/-- C4: a GET to the registration handler leaves the store unchanged and
renders the registration template with an empty unbound form. -/
theorem C4_get_no_write_renders_empty_form {U : Type} (F : UsuarioForm U)
    (req : Request) (store : List U) (hm : req.method = "GET") :
    cadastrar_usuario F req store =
      (store, Response.rendered "cadastrar_usuario.html"
        (Context.formCtx FormState.unbound)) := by
  simp [cadastrar_usuario, hm]

/-- Witness for C4 at a concrete validator, request and store. -/
theorem C4_witness :
    let F : UsuarioForm Nat :=
      ⟨fun d => if d.length = 1 then Except.ok 7 else Except.error [("nome", "obrigatorio")]⟩
    (⟨"GET", ([] : FormData)⟩ : Request).method = "GET" ∧
    cadastrar_usuario F ⟨"GET", []⟩ [3] =
      ([3], Response.rendered "cadastrar_usuario.html"
        (Context.formCtx FormState.unbound)) :=
  ⟨rfl, C4_get_no_write_renders_empty_form _ _ [3] rfl⟩

/-- C5: listing against an empty store returns a normal rendered response
whose context holds zero user representations, with no fault. -/
theorem C5_empty_store_lists_zero {U : Type} (req : Request) :
    listar_usuarios (U := U) req [] =
      ([], Response.rendered "listar_usuarios.html" (Context.usuariosCtx [])) :=
  rfl

/-- C6: the listing handler is read-only: it returns the store it was
given, unchanged, for every request and every store. -/
theorem C6_listing_read_only {U : Type} (req : Request) (store : List U) :
    (listar_usuarios req store).fst = store :=
  rfl

/-- C7: the URL configuration maps `cadastrar/` to the registration view
and `usuarios/` to the listing view, and these are its only routes. -/
theorem C7_url_routes :
    urlpatterns.map (fun p => (p.route, p.view)) =
      [("cadastrar/", View.cadastrar_usuario), ("usuarios/", View.listar_usuarios)] :=
  rfl

/-- C8: a request to the registration handler whose method is neither POST
nor GET behaves exactly as a GET with the same body: no write, and the
rendered empty unbound form is returned. -/
theorem C8_other_methods_behave_as_get {U : Type} (F : UsuarioForm U)
    (req : Request) (store : List U)
    (hp : req.method ≠ "POST") (hg : req.method ≠ "GET") :
    cadastrar_usuario F req store =
      cadastrar_usuario F ⟨"GET", req.postData⟩ store ∧
    cadastrar_usuario F req store =
      (store, Response.rendered "cadastrar_usuario.html"
        (Context.formCtx FormState.unbound)) := by
  constructor <;> simp [cadastrar_usuario, hp]

/-- Witness for C8 at a concrete validator, a PUT request and a store. -/
theorem C8_witness :
    let F : UsuarioForm Nat :=
      ⟨fun d => if d.length = 1 then Except.ok 7 else Except.error [("nome", "obrigatorio")]⟩
    (⟨"PUT", ([("nome", "ana")] : FormData)⟩ : Request).method ≠ "POST" ∧
    (⟨"PUT", ([("nome", "ana")] : FormData)⟩ : Request).method ≠ "GET" ∧
    (cadastrar_usuario F ⟨"PUT", [("nome", "ana")]⟩ [3] =
        cadastrar_usuario F ⟨"GET", [("nome", "ana")]⟩ [3] ∧
      cadastrar_usuario F ⟨"PUT", [("nome", "ana")]⟩ [3] =
        ([3], Response.rendered "cadastrar_usuario.html"
          (Context.formCtx FormState.unbound))) :=
  ⟨by decide, by decide,
    C8_other_methods_behave_as_get _ _ [3] (by decide) (by decide)⟩

/-- C9: the listing handler's response depends only on the store: any two
requests processed against the same store yield the same response. -/
theorem C9_listing_ignores_request {U : Type} (req₁ req₂ : Request)
    (store : List U) :
    (listar_usuarios req₁ store).snd = (listar_usuarios req₂ store).snd :=
  rfl

/-- C10: both handlers are total request/response transformations: on every
request and store each produces exactly one response, which is the redirect
to the listing route or a rendering of the handler's own template; no
control path ends without a response. -/
theorem C10_handlers_total {U : Type} (F : UsuarioForm U) (req : Request)
    (store : List U) :
    ((cadastrar_usuario F req store).snd = Response.redirect "listar_usuarios" ∨
      ∃ f : FormState, (cadastrar_usuario F req store).snd =
        Response.rendered "cadastrar_usuario.html" (Context.formCtx f)) ∧
    (∃ us : List U, (listar_usuarios req store).snd =
      Response.rendered "listar_usuarios.html" (Context.usuariosCtx us)) := by
  refine ⟨?_, store, rfl⟩
  unfold cadastrar_usuario
  split
  · cases F.validate req.postData with
    | ok u => exact Or.inl rfl
    | error errs => exact Or.inr ⟨FormState.bound req.postData errs, rfl⟩
  · exact Or.inr ⟨FormState.unbound, rfl⟩
